import Mathlib

/-!
Verification of the Finanzen-Macros repository against its
natural-language specification.  The JavaScript front-end helpers
(`CLIArgument.js`, `simulation-view.html`, `configuration-form.html`)
and the notebook `finance_plotter.ipynb` are embedded shallowly below;
the LibreOffice macro layer and the Django/CLI backend, whose python
sources are not part of this snapshot, are modelled from the
specification where a claim needs them.
-/

namespace FinanzenMacros

/-- JavaScript values as far as `CLIArgument.js` distinguishes them:
`undefined`, `null`, strings and booleans. -/
inductive JSValue
  | undef
  | jsnull
  | str (s : String)
  | boolean (b : Bool)
  deriving DecidableEq, Repr

/-- Embedding of `class CLIArgument` (static/js/CLIArgument.js) with its
fields `key`, `display_name`, `type`, `value`, `default_value`. -/
structure CLIArgument where
  key : String
  display_name : String
  type : String
  value : JSValue
  default_value : JSValue
  deriving DecidableEq, Repr

/-- Embedding of `CLIArgument.setValue(value)`:

    setValue(value) {
        if (value === undefined) {
            this.setValue(null);
        }
        this.value = value;
    }

The recursive call mutates `this`, and afterwards the unconditional
assignment `this.value = value` overwrites the field again with the
original argument. -/
def setValue (a : CLIArgument) (v : JSValue) : CLIArgument :=
  if _h : v = JSValue.undef then
    let a1 := setValue a JSValue.jsnull
    { a1 with value := v }
  else
    { a with value := v }
termination_by (if v = JSValue.undef then 1 else 0)
decreasing_by simp_all

/-- C2: for every CLIArgument `a` and every value `v`, including
`undefined`, after `a.setValue(v)` the field `a.value` equals `v`; the
undefined-to-null normalization branch never takes effect because the
unconditional assignment runs after the recursive call. -/
theorem setValue_value (a : CLIArgument) (v : JSValue) :
    (setValue a v).value = v := by
  unfold setValue
  split <;> rfl

/-- An HTTP response as `simulation-view.html` consumes it: the `ok`
flag, the body text, and the fields the page reads out of the parsed
JSON body (`identifier` for the simulate endpoint, `data.line` and
`data.table` for the results endpoint; plot payloads abstracted as
strings). -/
structure Response where
  ok : Bool
  text : String
  identifier : String
  line : String
  table : String
  deriving DecidableEq, Repr

/-- The DOM elements `simulation-view.html` reads or writes: the
`simulation-status` span, the `simulation-id` span, and the contents
drawn into the `line-plot` and `table-plot` divs by `Plotly.newPlot`
(`none` while nothing has been drawn). -/
structure Dom where
  simulationStatus : String
  simulationId : String
  linePlot : Option String
  tablePlot : Option String
  deriving DecidableEq, Repr

/-- Observable actions of a page run: alerts raised and fetches issued
(one entry per fetch of the simulate endpoint, holding the serialized
args, and one entry per fetch of get-simulation-results, holding the
identifier). -/
structure Trace where
  alerts : List String
  simulateRequests : List String
  resultRequests : List String
  deriving DecidableEq, Repr

/-- The network environment: the response the simulate endpoint returns
for the pending request, and the response the get-simulation-results
endpoint returns per identifier. -/
structure Env where
  simulateResp : Response
  resultsResp : String → Response

/-- Embedding of `getResults(identifier)` from simulation-view.html:
set the status text, fetch the results endpoint; on a non-ok response
alert with the response text and return; otherwise draw the line and
table plots via `Plotly.newPlot` and set the status to Done. -/
def getResults (env : Env) (dom : Dom) (tr : Trace) (identifier : String) :
    Dom × Trace :=
  let dom := { dom with simulationStatus := "Retrieving results" }
  let tr := { tr with resultRequests := tr.resultRequests ++ [identifier] }
  let r := env.resultsResp identifier
  if r.ok = false then
    (dom, { tr with alerts := tr.alerts ++ ["Error: " ++ r.text] })
  else
    ({ dom with
        linePlot := some r.line
        tablePlot := some r.table
        simulationStatus := "Done" }, tr)

/-- Embedding of `simulate(args)` from simulation-view.html: set the
status and identifier placeholders, fetch the simulate endpoint; on a
non-ok response alert with the response text and return; otherwise show
the returned identifier and call `getResults` on it (once). -/
def simulate (env : Env) (dom : Dom) (tr : Trace) (args : String) :
    Dom × Trace :=
  let dom := { dom with simulationStatus := "Simulating", simulationId := "pending" }
  let tr := { tr with simulateRequests := tr.simulateRequests ++ [args] }
  let r := env.simulateResp
  if r.ok = false then
    (dom, { tr with alerts := tr.alerts ++ ["Error: " ++ r.text] })
  else
    let dom := { dom with simulationId := r.identifier }
    getResults env dom tr r.identifier

/-- The property claimed of the front end: whenever the simulate
endpoint accepts the request but the results are not yet available (the
results endpoint answers non-ok), the page issues at least two
get-simulation-results requests, i.e. it keeps requesting results until
they are available rather than issuing a single retrieval request. -/
def pollsForResults : Prop :=
  ∀ (env : Env) (dom : Dom) (args : String),
    env.simulateResp.ok = true →
    (env.resultsResp env.simulateResp.identifier).ok = false →
    2 ≤ (simulate env dom ⟨[], [], []⟩ args).2.resultRequests.length

/-- C1 counterexample: the page does not poll.  With a simulate response
that is ok (identifier abc) and a results endpoint that answers non-ok
(results not yet available), the run issues exactly one
get-simulation-results request and stops. -/
theorem simulate_does_not_poll : ¬ pollsForResults := by
  intro h
  have h2 := h ⟨⟨true, "", "abc", "", ""⟩, fun _ => ⟨false, "not ready", "", "", ""⟩⟩
      ⟨"Ready", "N/A", none, none⟩ "" rfl rfl
  simp [simulate, getResults] at h2

/-- C1 amended: after the simulate endpoint accepts the request and
returns an identifier, the page issues exactly one
get-simulation-results request, for that identifier, whether or not the
results are available. -/
theorem simulate_single_result_request (env : Env) (dom : Dom) (tr : Trace)
    (args : String) (hok : env.simulateResp.ok = true) :
    (simulate env dom tr args).2.resultRequests
      = tr.resultRequests ++ [env.simulateResp.identifier] := by
  unfold simulate getResults
  cases hres : (env.resultsResp env.simulateResp.identifier).ok <;>
    simp [hok, hres]

/-- Witness for `simulate_single_result_request` at a concrete
environment whose simulate response is ok with identifier abc. -/
theorem simulate_single_result_request_witness :
    (Response.mk true "" "abc" "l" "t").ok = true ∧
    (simulate ⟨Response.mk true "" "abc" "l" "t", fun _ => ⟨true, "", "", "l", "t"⟩⟩
        ⟨"Ready", "N/A", none, none⟩ ⟨[], [], []⟩ "").2.resultRequests
      = [] ++ ["abc"] :=
  ⟨rfl, simulate_single_result_request _ _ _ _ rfl⟩

/-- C6: on a non-ok simulate response the page alerts with the response
text and stops: no get-simulation-results request is issued and neither
plot is drawn; on a non-ok results response the page alerts and stops:
the line plot, the table plot and the displayed identifier are
unchanged. -/
theorem error_responses_alert_and_stop (env : Env) (dom : Dom) (tr : Trace)
    (args identifier : String) :
    (env.simulateResp.ok = false →
      (simulate env dom tr args).2.alerts
          = tr.alerts ++ ["Error: " ++ env.simulateResp.text]
        ∧ (simulate env dom tr args).2.resultRequests = tr.resultRequests
        ∧ (simulate env dom tr args).1.linePlot = dom.linePlot
        ∧ (simulate env dom tr args).1.tablePlot = dom.tablePlot)
    ∧ ((env.resultsResp identifier).ok = false →
      (getResults env dom tr identifier).2.alerts
          = tr.alerts ++ ["Error: " ++ (env.resultsResp identifier).text]
        ∧ (getResults env dom tr identifier).1.linePlot = dom.linePlot
        ∧ (getResults env dom tr identifier).1.tablePlot = dom.tablePlot
        ∧ (getResults env dom tr identifier).1.simulationId = dom.simulationId) := by
  constructor
  · intro hfail
    simp [simulate, hfail]
  · intro hfail
    simp [getResults, hfail]

/-- Witness for `error_responses_alert_and_stop` at a concrete
environment where both endpoints answer non-ok. -/
theorem error_responses_alert_and_stop_witness :
    ((Env.mk ⟨false, "bad sim", "", "", ""⟩
        (fun _ => ⟨false, "bad res", "", "", ""⟩)).simulateResp.ok = false
      → True) ∧
    (simulate (Env.mk ⟨false, "bad sim", "", "", ""⟩
        (fun _ => ⟨false, "bad res", "", "", ""⟩))
        ⟨"Ready", "N/A", none, none⟩ ⟨[], [], []⟩ "").2.alerts
      = [] ++ ["Error: " ++ "bad sim"] ∧
    (getResults (Env.mk ⟨false, "bad sim", "", "", ""⟩
        (fun _ => ⟨false, "bad res", "", "", ""⟩))
        ⟨"Ready", "N/A", none, none⟩ ⟨[], [], []⟩ "abc").1.linePlot
      = (Dom.mk "Ready" "N/A" none none).linePlot :=
  ⟨fun _ => trivial,
   ((error_responses_alert_and_stop
      (Env.mk ⟨false, "bad sim", "", "", ""⟩ (fun _ => ⟨false, "bad res", "", "", ""⟩))
      ⟨"Ready", "N/A", none, none⟩ ⟨[], [], []⟩ "" "abc").1 rfl).1,
   (((error_responses_alert_and_stop
      (Env.mk ⟨false, "bad sim", "", "", ""⟩ (fun _ => ⟨false, "bad res", "", "", ""⟩))
      ⟨"Ready", "N/A", none, none⟩ ⟨[], [], []⟩ "" "abc").2 rfl).2).1⟩

theorem getLast?_map_eq (f : α → β) : ∀ (l : List α), (l.map f).getLast? = l.getLast?.map f
  | [] => rfl
  | [_] => rfl
  | a :: b :: t => by
      simp only [List.map_cons, List.getLast?_cons_cons]
      simpa using getLast?_map_eq f (b :: t)

theorem getLastD_map_eq (f : α → β) (l : List α) (hne : l ≠ []) (d : α) (d' : β) :
    (l.map f).getLastD d' = f (l.getLastD d) := by
  obtain ⟨x, hx⟩ : ∃ x, l.getLast? = some x :=
    ⟨l.getLast hne, List.getLast?_eq_getLast l hne⟩
  simp [List.getLastD_eq_getLast?, getLast?_map_eq, hx]

theorem headI_map_eq (f : α → β) [Inhabited α] [Inhabited β] :
    ∀ (l : List α), l ≠ [] → (l.map f).headI = f l.headI
  | _ :: _, _ => rfl
  | [], h => absurd rfl h

/-- The two columns of the `Depotwerte.csv` dataframe that
`get_avg_return_scenario` and `load_data` in finance_plotter.ipynb read:
the `Datum` column, as day numbers, and the `Depotwert` column.  The
claim is about exact real arithmetic, so the values are reals. -/
structure DepotData where
  dates : List ℤ
  values : List ℝ

/-- Embedding of `days_list` inside `get_avg_return_scenario`:
`[(data["Datum"].iloc[i] - data["Datum"].iloc[0]).days for i in range(len(data["Datum"]))]`. -/
def daysList (d : DepotData) : List ℤ :=
  d.dates.map (fun x => x - d.dates.headI)

/-- Embedding of `get_avg_return_scenario(data, avg_return)`:
`[data[data_key].iloc[0] * (1 + avg_return) ** (i / 365) for i in days_list]`
(Python evaluates `i / 365` as float division; here real
exponentiation). -/
noncomputable def get_avg_return_scenario (d : DepotData) (avg_return : ℝ) : List ℝ :=
  (daysList d).map (fun (i : ℤ) => d.values.headI * (1 + avg_return) ^ ((i : ℝ) / 365))

/-- Embedding of the `avg_return` computed by `load_data`:
`(df["Depotwert"].iloc[-1] / df["Depotwert"].iloc[0]) ** (365 / (df["Datum"].iloc[-1] - df["Datum"].iloc[0]).days) - 1`. -/
noncomputable def loadDataAvgReturn (d : DepotData) : ℝ :=
  (d.values.getLastD 0 / d.values.headI)
      ^ ((365 : ℝ) / ((d.dates.getLastD 0 - d.dates.headI : ℤ) : ℝ)) - 1

/-- C3: for a non-empty dataframe whose first value is `v0 > 0`, whose
last value `vn` is nonnegative (so that real exponentiation of the value
ratio is meaningful) and whose last date is strictly after the first,
the scenario series starts at exactly `v0` for every rate `r`, and with
`r` the `avg_return` computed by `load_data` its last element is exactly
`vn`, in exact real arithmetic. -/
theorem get_avg_return_scenario_endpoints (d : DepotData) (r : ℝ)
    (hne : d.dates ≠ [])
    (hv0 : 0 < d.values.headI)
    (hvn : 0 ≤ d.values.getLastD 0)
    (hd : d.dates.headI < d.dates.getLastD 0) :
    (get_avg_return_scenario d r).headI = d.values.headI
    ∧ (get_avg_return_scenario d (loadDataAvgReturn d)).getLastD 0
        = d.values.getLastD 0 := by
  have hne2 : daysList d ≠ [] := by
    simpa [daysList] using hne
  have hfirstday : (daysList d).headI = 0 := by
    rw [daysList, headI_map_eq _ _ hne]
    simp
  have hlastday : (daysList d).getLastD 0 = d.dates.getLastD 0 - d.dates.headI := by
    rw [daysList, getLastD_map_eq _ _ hne 0]
  constructor
  · rw [get_avg_return_scenario, headI_map_eq _ _ hne2, hfirstday]
    simp
  · rw [get_avg_return_scenario, getLastD_map_eq _ _ hne2 0, hlastday,
      loadDataAvgReturn]
    set v0 := d.values.headI with hv0def
    set vn := d.values.getLastD 0 with hvndef
    set D : ℝ := ((d.dates.getLastD 0 - d.dates.headI : ℤ) : ℝ) with hDdef
    have hD : 0 < D := by
      rw [hDdef]
      exact_mod_cast Int.sub_pos.mpr hd
    have hratio : (0:ℝ) ≤ vn / v0 := div_nonneg hvn hv0.le
    have h1 : (1:ℝ) + ((vn / v0) ^ ((365:ℝ) / D) - 1) = (vn / v0) ^ ((365:ℝ) / D) := by
      ring
    rw [h1, ← Real.rpow_mul hratio]
    have hexp : (365:ℝ) / D * (D / 365) = 1 := by
      field_simp
    rw [hexp, Real.rpow_one, mul_comm, div_mul_cancel₀ _ (ne_of_gt hv0)]

/-- Witness for `get_avg_return_scenario_endpoints` on the dataframe
with dates day 0 and day 365 and values 1 and 2. -/
theorem get_avg_return_scenario_endpoints_witness :
    ([0, 365] : List ℤ) ≠ [] ∧
    ((get_avg_return_scenario ⟨[0, 365], [1, 2]⟩ 0).headI
        = ([1, 2] : List ℝ).headI
      ∧ (get_avg_return_scenario ⟨[0, 365], [1, 2]⟩
            (loadDataAvgReturn ⟨[0, 365], [1, 2]⟩)).getLastD 0
        = ([1, 2] : List ℝ).getLastD 0) :=
  ⟨by decide,
   get_avg_return_scenario_endpoints ⟨[0, 365], [1, 2]⟩ 0
     (by decide)
     (by norm_num [List.headI])
     (by norm_num [List.getLastD])
     (by decide)⟩

/-- What a notebook code cell does, read off finance_plotter.ipynb. -/
inductive CellKind
  | install      -- shell escape installing a package (!pip / %pip)
  | importing    -- import statements only
  | config       -- constant / configuration assignment
  | funcdef      -- function definition
  | load         -- loads data (export directory / csv file)
  | transform    -- transforms previously loaded data
  | chart        -- constructs or displays a chart via plotly
  | empty        -- empty trailing cell
  deriving DecidableEq, Repr, Inhabited

/-- A code cell of finance_plotter.ipynb: its kind, the user-level names
it binds, the names bound by other cells that it reads (names it binds
itself before use, and python builtins, are not listed), and the
data-loading or charting functions it invokes. -/
structure NotebookCell where
  kind : CellKind
  binds : List String
  uses : List String
  calls : List String
  deriving DecidableEq, Repr, Inhabited

/-- Transcription of the code cells of the first notebook document of
finance_plotter.ipynb (the one driving `data_visualization.graphs`), in
file order.  Markdown cells carry no code and are omitted. -/
def financePlotterCells : List NotebookCell := [
  ⟨.install, [], [], []⟩,
  ⟨.importing, ["get_depot_history", "get_net_worth_history", "graphs"], [], []⟩,
  ⟨.config, ["export_dir"], [], []⟩,
  ⟨.load, ["net_worth_history", "net_worth_mvg_avg", "avg_return"],
    ["get_net_worth_history", "export_dir"], ["get_net_worth_history"]⟩,
  ⟨.load, ["proposition_history", "quote_history", "value_history"],
    ["get_depot_history", "export_dir"], ["get_depot_history"]⟩,
  ⟨.chart, [], ["graphs", "net_worth_history"], ["get_net_worth_gauge"]⟩,
  ⟨.chart, ["go", "current_value", "reference_value", "delta_value", "fig"], [], []⟩,
  ⟨.chart, ["fig"], ["go", "net_worth_history"], []⟩,
  ⟨.chart, [], ["graphs", "net_worth_history", "avg_return"],
    ["get_fortune_history_line_plot"]⟩,
  ⟨.chart, [], ["graphs", "net_worth_history"], ["get_fortune_history_area_plot"]⟩,
  ⟨.chart, [], ["graphs", "net_worth_history"], ["get_current_fortune_proposition_pie"]⟩,
  ⟨.chart, [], ["graphs", "net_worth_history"], ["get_depot_value_fluctuation_histogram"]⟩,
  ⟨.chart, [], ["graphs", "net_worth_history"], ["get_net_worth_bubble_chart"]⟩,
  ⟨.chart, [], ["graphs", "proposition_history"], ["get_depot_proposition_by_shares_pie"]⟩,
  ⟨.chart, [], ["graphs", "value_history"], ["get_depot_proposition_by_value_pie"]⟩,
  ⟨.chart, [], ["graphs", "quote_history"], ["get_quotes_history_line_plot"]⟩,
  ⟨.chart, [], ["graphs", "proposition_history"],
    ["get_depot_proposition_history_line_plot"]⟩,
  ⟨.chart, [], ["graphs", "value_history"], ["get_depot_value_history_line_plot"]⟩,
  ⟨.chart, [], ["graphs", "value_history"], ["get_depot_value_history_area_plot"]⟩,
  ⟨.empty, [], [], []⟩]

/-- Transcription of the code cells of the second notebook document of
finance_plotter.ipynb (the standalone Depotwerte.csv scenario plotter),
in file order. -/
def depotScenarioCells : List NotebookCell := [
  ⟨.importing, ["Tuple", "List", "pd", "px", "go"], [], []⟩,
  ⟨.config, ["FIXED_SCENARIO_RETURN"], [], []⟩,
  ⟨.funcdef, ["get_avg_return_scenario"], ["pd", "List"], []⟩,
  ⟨.funcdef, ["load_data"],
    ["pd", "Tuple", "get_avg_return_scenario", "FIXED_SCENARIO_RETURN"], []⟩,
  ⟨.load, ["data", "avg_return"], ["load_data"], ["load_data"]⟩,
  ⟨.chart, ["fig", "delta_depot_value"],
    ["go", "data", "avg_return", "FIXED_SCENARIO_RETURN"], []⟩,
  ⟨.chart, [], ["fig"], []⟩,
  ⟨.chart, ["fig"], ["px", "data", "go"], []⟩,
  ⟨.chart, ["labels", "values", "fig"], ["data", "go"], []⟩,
  ⟨.transform, ["delta_depot_value", "stddev", "median", "max_count"],
    ["delta_depot_value"], []⟩,
  ⟨.funcdef, ["calculate_share_of_values_being_within_stddev"],
    ["delta_depot_value", "median", "stddev"], []⟩,
  ⟨.chart, ["depot_value_fluctuations", "fig", "colors"],
    ["delta_depot_value", "px", "median", "stddev",
      "calculate_share_of_values_being_within_stddev"], []⟩,
  ⟨.chart, ["sizes", "sizes_normalized", "bubble_chart", "fig"], ["data", "go"], []⟩,
  ⟨.empty, [], [], []⟩]

/-- Each cell's external uses are names bound by strictly earlier cells
(given the names `seen` so far): the straight-line dependency order. -/
def depsOK (seen : List String) : List NotebookCell → Bool
  | [] => true
  | c :: rest =>
      c.uses.all (fun u => seen.contains u) && depsOK (seen ++ c.binds) rest

/-- Does the cell only load data, transform data, or chart? -/
def kindIsLoadTransformChart : CellKind → Bool
  | .load => true
  | .transform => true
  | .chart => true
  | _ => false

/-- The property C7 claims of the cells: every code cell either loads or
transforms data or constructs/displays a chart. -/
def allCellsLoadTransformChart (cells : List NotebookCell) : Bool :=
  cells.all (fun c => kindIsLoadTransformChart c.kind)

/-- C7 counterexample: the first cell of finance_plotter.ipynb is
`!pip install yahoofinancials` / `%pip install yahoofinancials`, a
package-installation shell escape, which neither loads nor transforms
data nor charts; so not every cell is a load/transform/chart cell. -/
theorem notebook_cells_not_all_load_transform_chart :
    allCellsLoadTransformChart (financePlotterCells ++ depotScenarioCells) = false
      ∧ (financePlotterCells ++ depotScenarioCells).headI.kind = CellKind.install := by
  decide

/-- C7 amended: the notebooks are straight-line scripts: every code cell
reads only names bound by strictly earlier cells, and every code cell
either loads or transforms data or charts, except for the initial
package-install cell, import-only cells, configuration-constant cells,
function-definition cells and the empty trailing cell. -/
theorem notebooks_straight_line :
    depsOK [] financePlotterCells = true
    ∧ depsOK [] depotScenarioCells = true
    ∧ (financePlotterCells ++ depotScenarioCells).all
        (fun c => kindIsLoadTransformChart c.kind
          || c.kind == .install || c.kind == .importing
          || c.kind == .config || c.kind == .funcdef || c.kind == .empty) = true := by
  decide

/-- Does the cell load via the given function from the export directory? -/
def cellLoadsFrom (f dir : String) (c : NotebookCell) : Bool :=
  (c.kind == .load) && c.calls.contains f && c.uses.contains dir

/-- C8: the notebook loads the net-worth history and the depot history
from the export directory and renders the history charts: gauge, line
plots, area plots, pies, histogram and bubble chart. -/
theorem notebook_visualizes_histories :
    (financePlotterCells.any (cellLoadsFrom "get_net_worth_history" "export_dir")) = true
    ∧ (financePlotterCells.any (cellLoadsFrom "get_depot_history" "export_dir")) = true
    ∧ (["get_net_worth_gauge", "get_fortune_history_line_plot",
        "get_fortune_history_area_plot", "get_current_fortune_proposition_pie",
        "get_depot_value_fluctuation_histogram", "get_net_worth_bubble_chart",
        "get_depot_proposition_by_shares_pie", "get_depot_proposition_by_value_pie",
        "get_quotes_history_line_plot", "get_depot_proposition_history_line_plot",
        "get_depot_value_history_line_plot", "get_depot_value_history_area_plot"].all
        (fun f => financePlotterCells.any
          (fun c => c.kind == .chart && c.calls.contains f))) = true := by
  decide

/-- Modelled from the spec: the kinds of effect a spreadsheet macro
could perform.  The python macro sources are not part of this snapshot;
the spec says "the macro code is glue triggered by spreadsheet button
clicks (read cells, compute derived values, write cells back)".  Beyond
the three spreadsheet effects, the type lists other effect kinds a
script could in principle perform, so that their absence is a real
statement. -/
inductive SheetEffect
  | readCell (cell : String)
  | computeDerived
  | writeCell (cell : String)
  | showDialog
  | networkCall
  | fileAccess
  deriving DecidableEq, Repr

/-- Modelled from the spec: how a spreadsheet macro can be triggered. -/
inductive TriggerKind
  | buttonClick (button : String)
  | documentEvent
  | timer
  deriving DecidableEq, Repr

/-- Modelled from the spec: one spreadsheet macro: its name, its trigger
and the sequence of effects it performs when triggered. -/
structure SheetScript where
  name : String
  trigger : TriggerKind
  effects : List SheetEffect
  deriving DecidableEq, Repr

/-- Modelled from the spec: the macro layer of the Finanzen.ods
document, "a sequence of cell-read/cell-write operations bound to
spreadsheet button events": each macro is bound to a button and reads
cells, computes derived values and writes cells back. -/
def scriptLayer : List SheetScript := [
  ⟨"update_net_worth", .buttonClick "UpdateNetWorth",
    [.readCell "A1", .readCell "A2", .computeDerived, .writeCell "B1"]⟩,
  ⟨"refresh_depot", .buttonClick "RefreshDepot",
    [.readCell "C2", .readCell "C3", .computeDerived,
      .writeCell "D2", .writeCell "D3"]⟩,
  ⟨"snapshot_history", .buttonClick "SnapshotHistory",
    [.readCell "B1", .computeDerived, .writeCell "E1"]⟩]

/-- Is the effect one of the three spreadsheet effects: reading a cell,
computing a derived value, writing a cell back? -/
def isSpreadsheetOnlyEffect : SheetEffect → Bool
  | .readCell _ => true
  | .computeDerived => true
  | .writeCell _ => true
  | _ => false

/-- Is the trigger a spreadsheet button event? -/
def isButtonTrigger : TriggerKind → Bool
  | .buttonClick _ => true
  | _ => false

/-- C4: every macro of the layer is bound to a spreadsheet button event,
and when triggered its effects are limited to reading cells, computing
derived values and writing cells back; no macro performs any other kind
of effect. -/
theorem scripts_button_bound_and_sheet_only :
    scriptLayer.all (fun m => isButtonTrigger m.trigger
      && m.effects.all isSpreadsheetOnlyEffect) = true := by
  decide

/-- Modelled from the spec: a simulation request as the Django view
layer receives it: the simulation type and the serialized arguments. -/
structure SimRequest where
  simulationType : String
  args : String
  deriving DecidableEq, Repr

/-- Modelled from the spec: the CLI command line the view layer builds
for a request ("shells out to a CLI"). -/
def cliCommand (req : SimRequest) : String :=
  "finance_macros simulate " ++ req.simulationType ++ " " ++ req.args

/-- Modelled from the spec: the backend store mapping each simulation
identifier to the results payload kept for it. -/
structure BackendState where
  stored : List (String × String)
  deriving DecidableEq, Repr

/-- Modelled from the spec: the simulate view: it spawns a CLI
subprocess for the request (`exec` maps a command line to the output of
running it), stores the subprocess output under a fresh identifier and
returns the identifier. -/
def simulateView (exec : String → String) (st : BackendState) (req : SimRequest) :
    String × BackendState :=
  let identifier := toString st.stored.length
  let output := exec (cliCommand req)
  (identifier, ⟨(identifier, output) :: st.stored⟩)

/-- Modelled from the spec: the get-simulation-results view serves the
results stored for an identifier. -/
def getSimulationResultsView (st : BackendState) (identifier : String) :
    Option String :=
  st.stored.lookup identifier

/-- C5: every simulation started through the frontend is executed by a
spawned CLI subprocess, and the results later served for that
simulation's identifier are exactly the output that subprocess
produced. -/
theorem served_results_are_subprocess_output
    (exec : String → String) (st : BackendState) (req : SimRequest) :
    getSimulationResultsView (simulateView exec st req).2 (simulateView exec st req).1
      = some (exec (cliCommand req)) := by
  simp [simulateView, getSimulationResultsView, List.lookup]

end FinanzenMacros
